import Mathlib

/-!
Shallow embedding of the LDAR-Sim satellite (orbit) deployment scheduler:
`methods/deployment/orbit_crew.py` (class `Schedule`) and
`methods/deployment/orbit_company.py` (class `Schedule`).

External collaborators (shapely polygons, numpy float16 reduction, the
netCDF cloud grid together with `geo_idx`, and `quick_cal_daylight` from
`utils.generic_functions`, which lives outside the verified slice) are
modelled as function-valued fields of the schedule state: the scheduler
only ever calls them and branches on their results.  Python's shared
`np.random` source is modelled as an explicit stream state (`Rng`) that
records how many shuffle draws and how many choice draws have been
consumed.  Mutation of `self` / `state` is modelled by state passing.
-/

namespace LdarSim

/-- A candidate site: latitude and longitude in degrees plus opaque
caller-owned metadata (modelled by an identifier). -/
structure Site where
  lat : Rat
  lon : Rat
  id : Nat
deriving DecidableEq

/-- A shapely ground-track coverage polygon, modelled extensionally by its
point-in-polygon test `contains lon lat` (the source builds
`Point(fac_lon, fac_lat)` and asks `dp.contains(PT)`). -/
structure Polygon where
  contains : Rat → Rat → Bool

/-- One daily itinerary entry as built by `Schedule.plan_visit`. -/
structure ItineraryEntry where
  site : Site
  go_to_site : Bool
  LDAR_mins : Nat
  remaining_mins : Nat
deriving DecidableEq

/-- The shared `np.random` source: a pre-drawn stream of shuffle
permutations and a pre-drawn stream of uniform indices into the
100-entry cloud indicator array, with counters recording how many of
each kind of draw have been consumed so far. -/
structure Rng where
  perms : Nat → Equiv.Perm (Fin 100)
  choices : Nat → Fin 100
  nperm : Nat
  nchoice : Nat

/-- Consume one `np.random.shuffle` draw. -/
def Rng.shuffle (r : Rng) : Equiv.Perm (Fin 100) × Rng :=
  (r.perms r.nperm, { r with nperm := r.nperm + 1 })

/-- Consume one `np.random.choice` draw. -/
def Rng.choice (r : Rng) : Fin 100 × Rng :=
  (r.choices r.nchoice, { r with nchoice := r.nchoice + 1 })

/-- The satellite crew schedule state (`orbit_crew.Schedule`).  `day`,
`hour` and `minute` embed `state['t'].current_date`; `timestep` embeds
`state['t'].current_timestep`; `worked_today` is `none` while the Python
attribute is still unset.  `f16` embeds the `np.float16` coordinate
reduction, `daylight` embeds `quick_cal_daylight` (sunrise/sunset hours
for a date and reduced coordinates), and `cloudLookup` embeds the
`geo_idx`-indexed read of the `tcc` cloud-fraction grid at a timestep and
reduced coordinates. -/
structure Schedule where
  consider_weather : Bool
  work_hours : Nat
  start_hour : Nat
  end_hour : Nat
  sat_date : List Nat
  orbit_path : List Polygon
  day : Nat
  hour : Nat
  minute : Nat
  timestep : Nat
  worked_today : Option Bool
  f16 : Rat → Rat
  daylight : Nat → Rat → Rat → Rat × Rat
  cloudLookup : Nat → Rat → Rat → Rat

/-- Python's built-in `round` (round half to even) on rationals. -/
def pyRound (q : Rat) : Int :=
  if q - (Rat.floor q : Rat) < 1/2 then Rat.floor q
  else if 1/2 < q - (Rat.floor q : Rat) then Rat.floor q + 1
  else if Rat.floor q % 2 = 0 then Rat.floor q else Rat.floor q + 1

/-- The 100-entry indicator array `arr = np.zeros(100); arr[:CC] = 1`. -/
def indicator (CC : Nat) : Fin 100 → Nat :=
  fun i => if (i : Nat) < CC then 1 else 0

/-- The cloud-obstruction draw of `assess_weather` for a looked-up cloud
fraction `cc_frac`, a shuffle permutation `p` and a chosen index `c`:
`CC = round(cc_frac*100)`, shuffle the indicator array by `p`, draw entry
`c`, and report `sat_cc = (entry == 0)` (`true` = not obscured). -/
def cloud_draw (cc_frac : Rat) (p : Equiv.Perm (Fin 100)) (c : Fin 100) : Bool :=
  indicator (pyRound (cc_frac * 100)).toNat (p c) == 0

/-- `Schedule.assess_weather`: the daylight signal compares the current
hour with the `quick_cal_daylight` sunrise/sunset bounds at the site's
float16-reduced coordinates; the cloud signal is `cloud_draw` on the
looked-up cloud fraction, consuming one shuffle and one choice from the
random source. -/
def assess_weather (sched : Schedule) (site : Site) (rng : Rng) :
    (Bool × Bool) × Rng :=
  let slat := sched.f16 site.lat
  let slon := sched.f16 site.lon
  let srss := sched.daylight sched.day slat slon
  let sat_daylight := decide (srss.1 ≤ (sched.hour : Rat) ∧ (sched.hour : Rat) ≤ srss.2)
  let cc_frac := sched.cloudLookup sched.timestep slat slon
  let pr := rng.shuffle
  let cr := pr.2.choice
  let sat_cc := cloud_draw cc_frac pr.1 cr.1
  ((sat_daylight, sat_cc), cr.2)

/-- `path[sat_date == date]`: the coverage polygons whose recorded
calendar date equals `d`, in recorded order. -/
def polys_for_date (satDate : List Nat) (orbitPath : List Polygon) (d : Nat) :
    List Polygon :=
  ((satDate.zip orbitPath).filter (fun x => x.1 == d)).map Prod.snd

/-- The inner loop of `calc_viewable_sites`: test the point against each
of today's polygons in turn, stopping at the first containing one. -/
def containedInAny : List Polygon → Rat → Rat → Bool
  | [], _, _ => false
  | dp :: rest, lon, lat =>
    if dp.contains lon lat then true else containedInAny rest lon lat

/-- The outer loop of `calc_viewable_sites` over the site pool, appending
each site contained in one of today's polygons. -/
def viewLoop (f16 : Rat → Rat) (DP : List Polygon) : List Site → List Site
  | [] => []
  | s :: rest =>
    if containedInAny DP (f16 s.lon) (f16 s.lat) then
      s :: viewLoop f16 DP rest
    else
      viewLoop f16 DP rest

/-- `Schedule.calc_viewable_sites`: select today's polygons and keep the
sites whose float16-reduced coordinates are contained in one of them. -/
def calc_viewable_sites (sched : Schedule) (site_pool : List Site) : List Site :=
  viewLoop sched.f16 (polys_for_date sched.sat_date sched.orbit_path sched.day)
    site_pool

/-- `Schedule.plan_visit`. -/
def plan_visit (site : Site) : ItineraryEntry :=
  { site := site, go_to_site := true, LDAR_mins := 0, remaining_mins := 0 }

/-- The per-site weather loop of `start_day`: assess each viewable site in
order (threading the random source) and keep the plans of the sites that
pass the gate or bypass it when weather is not considered. -/
def weatherLoop (sched : Schedule) : List Site → Rng → List ItineraryEntry × Rng
  | [], rng => ([], rng)
  | site :: rest, rng =>
    let ar := assess_weather sched site rng
    let tl := weatherLoop sched rest ar.2
    if (ar.1.1 && ar.1.2) || !sched.consider_weather then
      (plan_visit site :: tl.1, tl.2)
    else
      tl

/-- `Schedule.start_day`: set the clock hour to 1, filter the site pool by
visibility, and either record `worked_today = False` with an empty plan
list or run the weather gate over each viewable site.  Returns the updated
schedule state, the daily itinerary, and the updated random source. -/
def start_day (sched : Schedule) (site_pool : List Site) (rng : Rng) :
    Schedule × List ItineraryEntry × Rng :=
  let sched1 := { sched with hour := 1 }
  let viewable := calc_viewable_sites sched1 site_pool
  if viewable.length = 0 then
    ({ sched1 with worked_today := some false }, ([], rng))
  else
    let wr := weatherLoop sched1 viewable rng
    (sched1, wr)

/-- `Schedule.update_schedule`: advance `current_date` by `work_mins`
minutes (datetime carry into hours and days). -/
def update_schedule (sched : Schedule) (work_mins : Nat) : Schedule :=
  let total := sched.minute + work_mins
  let h := sched.hour + total / 60
  { sched with minute := total % 60, hour := h % 24, day := sched.day + h / 24 }

/-- `Schedule.end_day`: a no-op. -/
def end_day (sched : Schedule) (site_pool : List Site)
    (itinerary : List ItineraryEntry) : Schedule :=
  sched

/-- `i = 0; for x in TLEs: if x == self.sat: break; i += 1` — the index of
the first line equal to `sat`, or the list length when absent. -/
def findSatIdx : List String → String → Nat
  | [], _ => 0
  | x :: rest, sat => if x = sat then 0 else 1 + findSatIdx rest sat

/-- `Schedule.get_orbit_predictor`: locate the satellite identifier line
and consume the two following lines as the TLE pair.  Out-of-range list
indexing raises Python's `IndexError`, modelled as the error value. -/
def get_orbit_predictor (TLEs : List String) (sat : String) :
    Except String (String × String) :=
  let i := findSatIdx TLEs sat
  match TLEs.get? (i + 1), TLEs.get? (i + 2) with
  | some l1, some l2 => Except.ok (l1, l2)
  | _, _ => Except.error "IndexError"

/-- `Schedule.__init__`: fix the working window (24 hours, 0–23), build
the orbit predictor from the TLE catalog — failing there aborts
construction with the raised error — and then build the date-indexed
orbit-path table (`init_orbit_poly`, modelled by the `orbitTable`
collaborator).  No schedule state is constructed on failure. -/
def mk_schedule (TLEs : List String) (sat : String) (consider_weather : Bool)
    (day hour minute timestep : Nat)
    (orbitTable : String × String → List Nat × List Polygon)
    (f16 : Rat → Rat) (daylight : Nat → Rat → Rat → Rat × Rat)
    (cloudLookup : Nat → Rat → Rat → Rat) : Except String Schedule :=
  match get_orbit_predictor TLEs sat with
  | Except.error e => Except.error e
  | Except.ok tle =>
    let tbl := orbitTable tle
    Except.ok
      { consider_weather := consider_weather
        work_hours := 24
        start_hour := 0
        end_hour := 23
        sat_date := tbl.1
        orbit_path := tbl.2
        day := day
        hour := hour
        minute := minute
        timestep := timestep
        worked_today := none
        f16 := f16
        daylight := daylight
        cloudLookup := cloudLookup }

namespace Company

/-- `orbit_company.Schedule.get_due_sites`. -/
def get_due_sites (site_pool : List Site) : List Site :=
  site_pool

/-- `orbit_company.Schedule.get_working_crews`. -/
def get_working_crews (site_pool : List Site) (n_crews : Nat) : Nat :=
  n_crews

/-- `orbit_company.Schedule.get_crew_site_list`. -/
def get_crew_site_list (site_pool : List Site) (crew_num n_crews : Nat)
    (crews : Option (List Nat)) : List Site :=
  site_pool

end Company

/-! Concrete fixtures used to evaluate the embedding at explicit inputs. -/

/-- A concrete random source: identity shuffles and index-0 choices. -/
def rng0 : Rng :=
  { perms := fun _ => Equiv.refl (Fin 100)
    choices := fun _ => 0
    nperm := 0
    nchoice := 0 }

/-- A concrete coverage polygon: the box [0,10] × [0,10]. -/
def poly0 : Polygon :=
  { contains := fun lon lat => decide (0 ≤ lon ∧ lon ≤ 10 ∧ 0 ≤ lat ∧ lat ≤ 10) }

/-- A concrete site inside `poly0`. -/
def siteIn : Site :=
  { lat := 5, lon := 5, id := 0 }

/-- A concrete site outside `poly0`. -/
def siteOut : Site :=
  { lat := 50, lon := 50, id := 1 }

/-- A concrete schedule state: weather not considered, one polygon recorded
for the current date, clear sky everywhere. -/
def sched0 : Schedule :=
  { consider_weather := false
    work_hours := 24
    start_hour := 0
    end_hour := 23
    sat_date := [7]
    orbit_path := [poly0]
    day := 7
    hour := 0
    minute := 0
    timestep := 0
    worked_today := none
    f16 := fun q => q
    daylight := fun _ _ _ => (6, 18)
    cloudLookup := fun _ _ _ => 0 }

/-- The schedule `sched0` with weather considered and full cloud cover. -/
def schedCloudy : Schedule :=
  { sched0 with consider_weather := true, cloudLookup := fun _ _ _ => 1 }

/-! Helper lemmas. -/

theorem calc_viewable_sites_hour_irrelevant (sched : Schedule) (h : Nat)
    (site_pool : List Site) :
    calc_viewable_sites { sched with hour := h } site_pool
      = calc_viewable_sites sched site_pool :=
  rfl

theorem rat_floor_eq (q : Rat) : Rat.floor q = Int.floor q :=
  rfl

theorem containedInAny_eq_any (DP : List Polygon) (lon lat : Rat) :
    containedInAny DP lon lat = DP.any (fun dp => dp.contains lon lat) := by
  induction DP with
  | nil => rfl
  | cons dp rest ih =>
    cases h : dp.contains lon lat <;> simp [containedInAny, h, ih]

theorem viewLoop_eq_filter (f16 : Rat → Rat) (DP : List Polygon)
    (site_pool : List Site) :
    viewLoop f16 DP site_pool
      = site_pool.filter (fun s => containedInAny DP (f16 s.lon) (f16 s.lat)) := by
  induction site_pool with
  | nil => rfl
  | cons s rest ih =>
    cases h : containedInAny DP (f16 s.lon) (f16 s.lat) <;>
      simp [viewLoop, List.filter_cons, h, ih]

theorem weatherLoop_no_weather (sched : Schedule)
    (hw : sched.consider_weather = false) :
    ∀ (sites : List Site) (rng : Rng),
      (weatherLoop sched sites rng).1 = sites.map plan_visit := by
  intro sites
  induction sites with
  | nil => intro rng; rfl
  | cons s rest ih =>
    intro rng
    simp [weatherLoop, hw, ih]

theorem weatherLoop_rng_counters (sched : Schedule) :
    ∀ (sites : List Site) (rng : Rng),
      (weatherLoop sched sites rng).2.nperm = rng.nperm + sites.length ∧
      (weatherLoop sched sites rng).2.nchoice = rng.nchoice + sites.length := by
  intro sites
  induction sites with
  | nil => intro rng; simp [weatherLoop]
  | cons s rest ih =>
    intro rng
    have hp : (assess_weather sched s rng).2.nperm = rng.nperm + 1 := rfl
    have hc : (assess_weather sched s rng).2.nchoice = rng.nchoice + 1 := rfl
    have htl := ih (assess_weather sched s rng).2
    have h2 : (weatherLoop sched (s :: rest) rng).2
        = (weatherLoop sched rest (assess_weather sched s rng).2).2 := by
      simp only [weatherLoop]
      split <;> rfl
    constructor
    · rw [h2, htl.1, hp, List.length_cons]
      omega
    · rw [h2, htl.2, hc, List.length_cons]
      omega

theorem pyRound_nonneg {q : Rat} (h : 0 ≤ q) : 0 ≤ pyRound q := by
  have hn : (0 : Int) ≤ Int.floor q := Int.floor_nonneg.mpr h
  unfold pyRound
  simp only [rat_floor_eq]
  split
  · exact hn
  · split
    · omega
    · split <;> omega

theorem pyRound_le_hundred {q : Rat} (h : q ≤ 100) : pyRound q ≤ 100 := by
  have hfle : (Int.floor q : Rat) ≤ q := Int.floor_le q
  have hf100 : Int.floor q ≤ 100 := by
    have h101 : Int.floor q < 101 := by
      rw [Int.floor_lt]
      push_cast
      linarith
    omega
  unfold pyRound
  simp only [rat_floor_eq]
  split
  · exact hf100
  · rename_i h1
    push_neg at h1
    have hflt : Int.floor q < 100 := by
      have hr : (Int.floor q : Rat) < 100 := by linarith
      exact_mod_cast hr
    split
    · omega
    · split <;> omega

theorem pyRound_intCast (n : Int) : pyRound ((n : Rat)) = n := by
  unfold pyRound
  simp only [rat_floor_eq, Int.floor_intCast, sub_self]
  norm_num

theorem card_filter_comp_perm (p : Equiv.Perm (Fin 100)) (P : Fin 100 → Prop)
    [DecidablePred P] :
    (Finset.univ.filter fun c => P (p c)).card = (Finset.univ.filter P).card := by
  have himg : (Finset.univ.filter fun c => P (p c))
      = (Finset.univ.filter P).map p.symm.toEmbedding := by
    ext c
    simp only [Finset.mem_filter, Finset.mem_univ, true_and, Finset.mem_map,
      Equiv.toEmbedding_apply]
    constructor
    · intro h
      exact ⟨p c, h, p.symm_apply_apply c⟩
    · rintro ⟨j, hj, rfl⟩
      simpa using hj
  rw [himg, Finset.card_map]

theorem card_filter_fin_lt (CC : Nat) (h : CC ≤ 100) :
    (Finset.univ.filter fun j : Fin 100 => (j : Nat) < CC).card = CC := by
  have himg : (Finset.univ.filter fun j : Fin 100 => (j : Nat) < CC).image Fin.val
      = Finset.range CC := by
    ext n
    simp only [Finset.mem_image, Finset.mem_filter, Finset.mem_univ, true_and,
      Finset.mem_range]
    constructor
    · rintro ⟨j, hj, rfl⟩
      exact hj
    · intro hn
      exact ⟨⟨n, lt_of_lt_of_le hn h⟩, hn, rfl⟩
  have hcard := Finset.card_image_of_injective
    (Finset.univ.filter fun j : Fin 100 => (j : Nat) < CC) Fin.val_injective
  rw [himg, Finset.card_range] at hcard
  exact hcard.symm

theorem assess_weather_cloud_eq (sched : Schedule) (site : Site) (rng : Rng) :
    (assess_weather sched site rng).1.2
      = cloud_draw
          (sched.cloudLookup sched.timestep (sched.f16 site.lat) (sched.f16 site.lon))
          (rng.perms rng.nperm) (rng.choices rng.nchoice) :=
  rfl

theorem cloud_draw_zero (p : Equiv.Perm (Fin 100)) (c : Fin 100) :
    cloud_draw 0 p c = true := by
  have h : pyRound ((0 : Rat) * 100) = 0 := by
    have h0 : ((0 : Rat) * 100) = ((0 : Int) : Rat) := by norm_num
    rw [h0, pyRound_intCast]
  unfold cloud_draw
  rw [h]
  simp [indicator]

theorem cloud_draw_one (p : Equiv.Perm (Fin 100)) (c : Fin 100) :
    cloud_draw 1 p c = false := by
  have h : pyRound ((1 : Rat) * 100) = 100 := by
    have h0 : ((1 : Rat) * 100) = ((100 : Int) : Rat) := by norm_num
    rw [h0, pyRound_intCast]
  unfold cloud_draw
  rw [h]
  simp [indicator, (p c).isLt]

theorem findSatIdx_not_mem (TLEs : List String) (sat : String) (h : sat ∉ TLEs) :
    findSatIdx TLEs sat = TLEs.length := by
  induction TLEs with
  | nil => rfl
  | cons x rest ih =>
    simp only [List.mem_cons, not_or] at h
    simp only [findSatIdx, if_neg (fun hx : x = sat => h.1 hx.symm), ih h.2,
      List.length_cons]
    omega

/-! Claim theorems. -/

/-- C1: `calc_viewable_sites` returns exactly those sites of the pool
whose float16-reduced coordinates are contained in at least one of the
polygons recorded for the current date (the inner loop checks today's
polygons in turn and stops at the first containing one, which is
equivalent to the `any` characterisation), and it preserves the input
order of the site pool (the result is a sublist of the pool); being a
filter of the pool, it is the empty list when no polygon contains any
site. -/
theorem calc_viewable_sites_spec (sched : Schedule) (site_pool : List Site) :
    calc_viewable_sites sched site_pool
      = site_pool.filter (fun s =>
          (polys_for_date sched.sat_date sched.orbit_path sched.day).any
            (fun dp => dp.contains (sched.f16 s.lon) (sched.f16 s.lat)))
    ∧ List.Sublist (calc_viewable_sites sched site_pool) site_pool := by
  constructor
  · unfold calc_viewable_sites
    rw [viewLoop_eq_filter]
    simp only [containedInAny_eq_any]
  · unfold calc_viewable_sites
    rw [viewLoop_eq_filter]
    exact List.filter_sublist _

/-- C2: the cloud-obstruction draw of `assess_weather` is an unbiased
Bernoulli trial with success probability `round(f*100)/100`: for every
cloud fraction `f ∈ [0,1]` and every shuffle permutation of the 100-entry
indicator array, the fraction of the 100 equiprobable choice indices on
which the draw reports obstruction (`cloud_draw … = false`) is exactly
`round(f*100)/100`, so the marginal probability of obstruction equals the
rounded cloud-fraction percentage for every shuffle outcome. -/
theorem cloud_trial_unbiased (f : Rat) (h0 : 0 ≤ f) (h1 : f ≤ 1)
    (p : Equiv.Perm (Fin 100)) :
    ((Finset.univ.filter fun c : Fin 100 => cloud_draw f p c = false).card : Rat) / 100
      = ((pyRound (f * 100) : Int) : Rat) / 100 := by
  have hnn : 0 ≤ pyRound (f * 100) := pyRound_nonneg (by linarith)
  have hle : pyRound (f * 100) ≤ 100 := pyRound_le_hundred (by linarith)
  have hCC : (pyRound (f * 100)).toNat ≤ 100 := by omega
  have heq : (Finset.univ.filter fun c : Fin 100 => cloud_draw f p c = false)
      = Finset.univ.filter fun c : Fin 100 =>
          ((p c : Nat) < (pyRound (f * 100)).toNat) := by
    apply Finset.filter_congr
    intro c _
    unfold cloud_draw indicator
    by_cases hc : ((p c : Nat) < (pyRound (f * 100)).toNat) <;> simp [hc]
  rw [heq,
    card_filter_comp_perm p (fun j : Fin 100 => (j : Nat) < (pyRound (f * 100)).toNat),
    card_filter_fin_lt _ hCC]
  have hcast : (((pyRound (f * 100)).toNat : Nat) : Rat)
      = ((pyRound (f * 100) : Int) : Rat) := by
    exact_mod_cast congrArg (fun z : Int => (z : Rat)) (Int.toNat_of_nonneg hnn)
  rw [hcast]

/-- C2 witness: the unbiasedness theorem instantiated at cloud fraction
3/10 and the identity shuffle. -/
theorem cloud_trial_unbiased_witness :
    ((0 : Rat) ≤ 3/10 ∧ (3/10 : Rat) ≤ 1)
    ∧ ((Finset.univ.filter fun c : Fin 100 =>
          cloud_draw (3/10) (Equiv.refl (Fin 100)) c = false).card : Rat) / 100
        = ((pyRound ((3/10 : Rat) * 100) : Int) : Rat) / 100 :=
  ⟨⟨by norm_num, by norm_num⟩,
    cloud_trial_unbiased (3/10) (by norm_num) (by norm_num) (Equiv.refl (Fin 100))⟩

/-- C3: when `consider_weather` is false, the itinerary returned by
`start_day` is exactly the list of visit plans of the viewable sites, in
the viewable order, and every entry has `go_to_site = true`,
`LDAR_mins = 0` and `remaining_mins = 0`, regardless of the daylight and
cloud signals. -/
theorem start_day_no_weather (sched : Schedule) (site_pool : List Site)
    (rng : Rng) (hw : sched.consider_weather = false) :
    (start_day sched site_pool rng).2.1
      = (calc_viewable_sites sched site_pool).map plan_visit
    ∧ ∀ e ∈ (start_day sched site_pool rng).2.1,
        e.go_to_site = true ∧ e.LDAR_mins = 0 ∧ e.remaining_mins = 0 := by
  have hw1 : ({ sched with hour := 1 } : Schedule).consider_weather = false := hw
  have hmain : (start_day sched site_pool rng).2.1
      = (calc_viewable_sites sched site_pool).map plan_visit := by
    simp only [start_day]
    by_cases h : (calc_viewable_sites { sched with hour := 1 } site_pool).length = 0
    · rw [if_pos h]
      have hnil : calc_viewable_sites sched site_pool = [] :=
        List.length_eq_zero.mp h
      simp [hnil]
    · rw [if_neg h]
      rw [show ((({ sched with hour := 1 } : Schedule),
          weatherLoop { sched with hour := 1 }
            (calc_viewable_sites { sched with hour := 1 } site_pool) rng)).2.1
        = (weatherLoop { sched with hour := 1 }
            (calc_viewable_sites { sched with hour := 1 } site_pool) rng).1 from rfl]
      rw [weatherLoop_no_weather _ hw1]
      rfl
  refine ⟨hmain, ?_⟩
  intro e he
  rw [hmain] at he
  simp only [List.mem_map] at he
  obtain ⟨s, _, rfl⟩ := he
  exact ⟨rfl, rfl, rfl⟩

/-- C3 witness: the theorem instantiated at a concrete schedule with
weather disabled and a pool holding one viewable and one non-viewable
site. -/
theorem start_day_no_weather_witness :
    sched0.consider_weather = false
    ∧ ((start_day sched0 [siteIn, siteOut] rng0).2.1
          = (calc_viewable_sites sched0 [siteIn, siteOut]).map plan_visit
      ∧ ∀ e ∈ (start_day sched0 [siteIn, siteOut] rng0).2.1,
          e.go_to_site = true ∧ e.LDAR_mins = 0 ∧ e.remaining_mins = 0) :=
  ⟨rfl, start_day_no_weather sched0 [siteIn, siteOut] rng0 rfl⟩

/-- C4: when the cloud-fraction lookup for the site returns 0,
`assess_weather` reports not-obscured (`sat_cc = true`) for every state
of the random source: the rounded percentage is 0, the indicator array is
all zeros, and the drawn entry is always 0. -/
theorem assess_weather_clear (sched : Schedule) (site : Site) (rng : Rng)
    (h : sched.cloudLookup sched.timestep (sched.f16 site.lat) (sched.f16 site.lon)
        = 0) :
    (assess_weather sched site rng).1.2 = true := by
  rw [assess_weather_cloud_eq, h, cloud_draw_zero]

/-- C4 witness: the theorem instantiated at a concrete schedule whose
cloud lookup is identically 0. -/
theorem assess_weather_clear_witness :
    sched0.cloudLookup sched0.timestep (sched0.f16 siteIn.lat)
        (sched0.f16 siteIn.lon) = 0
    ∧ (assess_weather sched0 siteIn rng0).1.2 = true :=
  ⟨rfl, assess_weather_clear sched0 siteIn rng0 rfl⟩

/-- C5: when the cloud-fraction lookup for the site returns 1 (100 %),
`assess_weather` reports obscured (`sat_cc = false`) for every state of
the random source: the rounded percentage is 100, the indicator array is
all ones, and the drawn entry is always 1. -/
theorem assess_weather_overcast (sched : Schedule) (site : Site) (rng : Rng)
    (h : sched.cloudLookup sched.timestep (sched.f16 site.lat) (sched.f16 site.lon)
        = 1) :
    (assess_weather sched site rng).1.2 = false := by
  rw [assess_weather_cloud_eq, h, cloud_draw_one]

/-- C5 witness: the theorem instantiated at a concrete schedule whose
cloud lookup is identically 1. -/
theorem assess_weather_overcast_witness :
    schedCloudy.cloudLookup schedCloudy.timestep (schedCloudy.f16 siteIn.lat)
        (schedCloudy.f16 siteIn.lon) = 1
    ∧ (assess_weather schedCloudy siteIn rng0).1.2 = false :=
  ⟨rfl, assess_weather_overcast schedCloudy siteIn rng0 rfl⟩

/-- C6 counterexample: with a concrete TLE catalog that does not contain
the configured identifier, initialization fails with Python's uncaught
`IndexError` from indexing past the end of the line list — not with an
"identifier not found" / "unknown satellite" error as claimed. -/
theorem get_orbit_predictor_error_not_named :
    get_orbit_predictor ["SATA", "LINE1", "LINE2"] "SATB"
        = Except.error "IndexError"
    ∧ ("IndexError" : String) ≠ "identifier not found" :=
  ⟨rfl, by decide⟩

/-- C6 amended: if the configured satellite identifier occurs on no line
of the TLE catalog, `get_orbit_predictor` fails — with an uncaught
`IndexError` from reading two lines past the end of the catalog, rather
than a descriptive identifier-not-found error — and initialization
(`mk_schedule`) propagates that failure before any day scheduling can be
attempted, so no partial schedule state is constructed. -/
theorem get_orbit_predictor_unknown_sat (TLEs : List String) (sat : String)
    (h : sat ∉ TLEs) (cw : Bool) (day hour minute timestep : Nat)
    (orbitTable : String × String → List Nat × List Polygon) (f16 : Rat → Rat)
    (daylight : Nat → Rat → Rat → Rat × Rat)
    (cloudLookup : Nat → Rat → Rat → Rat) :
    get_orbit_predictor TLEs sat = Except.error "IndexError"
    ∧ mk_schedule TLEs sat cw day hour minute timestep orbitTable f16 daylight
        cloudLookup = Except.error "IndexError" := by
  have hp : get_orbit_predictor TLEs sat = Except.error "IndexError" := by
    have hg1 : TLEs.get? (TLEs.length + 1) = none := by
      rw [List.get?_eq_none]
      omega
    have hg2 : TLEs.get? (TLEs.length + 2) = none := by
      rw [List.get?_eq_none]
      omega
    unfold get_orbit_predictor
    rw [findSatIdx_not_mem TLEs sat h]
    simp only [hg1, hg2]
  refine ⟨hp, ?_⟩
  unfold mk_schedule
  rw [hp]

/-- C6 witness: the amended theorem instantiated at a concrete catalog
missing the identifier. -/
theorem get_orbit_predictor_unknown_sat_witness :
    ("SATC" ∉ (["SATD", "LA", "LB"] : List String))
    ∧ (get_orbit_predictor ["SATD", "LA", "LB"] "SATC" = Except.error "IndexError"
      ∧ mk_schedule ["SATD", "LA", "LB"] "SATC" false 0 0 0 0 (fun _ => ([], []))
          (fun q => q) (fun _ _ _ => (0, 0)) (fun _ _ _ => 0)
        = Except.error "IndexError") :=
  ⟨by decide,
    get_orbit_predictor_unknown_sat ["SATD", "LA", "LB"] "SATC" (by decide)
      false 0 0 0 0 (fun _ => ([], [])) (fun q => q) (fun _ _ _ => (0, 0))
      (fun _ _ _ => 0)⟩

/-- C7 counterexample: at a concrete schedule whose working window starts
at hour 0 (`start_hour = 0`, as set by initialization), `start_day` sets
the clock's hour field to 1, which is not the start of the working
window. -/
theorem start_day_hour_counterexample :
    sched0.start_hour = 0
    ∧ ((start_day sched0 [] rng0).1).hour = 1
    ∧ ((start_day sched0 [] rng0).1).hour ≠ sched0.start_hour :=
  ⟨rfl, rfl, by decide⟩

/-- C7 amended: every call to `start_day` sets the clock's hour field to
the constant 1 — one hour after the start of the satellite's working
window (`start_hour`, fixed at 0 by initialization) — and leaves
`start_hour` itself unchanged; the normalized hour therefore does not
equal the start of the working window. -/
theorem start_day_sets_hour_one (sched : Schedule) (site_pool : List Site)
    (rng : Rng) :
    ((start_day sched site_pool rng).1).hour = 1
    ∧ ((start_day sched site_pool rng).1).start_hour = sched.start_hour := by
  simp only [start_day]
  by_cases h : (calc_viewable_sites { sched with hour := 1 } site_pool).length = 0
  · rw [if_pos h]
    exact ⟨rfl, rfl⟩
  · rw [if_neg h]
    exact ⟨rfl, rfl⟩

/-- C8: with `consider_weather` false and a nonempty viewable list,
`start_day` still evaluates `assess_weather` once per viewable site: the
returned random source has consumed exactly one shuffle draw and one
choice draw per viewable site, even though the signals are then ignored
rather than skipped. -/
theorem start_day_consumes_rng (sched : Schedule) (site_pool : List Site)
    (rng : Rng) (hw : sched.consider_weather = false)
    (hv : calc_viewable_sites sched site_pool ≠ []) :
    (start_day sched site_pool rng).2.2.nperm
        = rng.nperm + (calc_viewable_sites sched site_pool).length
    ∧ (start_day sched site_pool rng).2.2.nchoice
        = rng.nchoice + (calc_viewable_sites sched site_pool).length := by
  have hlen : ¬ (calc_viewable_sites { sched with hour := 1 } site_pool).length = 0 := by
    rw [calc_viewable_sites_hour_irrelevant]
    simpa [List.length_eq_zero] using hv
  simp only [start_day]
  rw [if_neg hlen]
  exact weatherLoop_rng_counters { sched with hour := 1 }
    (calc_viewable_sites { sched with hour := 1 } site_pool) rng

/-- C8 witness: the theorem instantiated at a concrete schedule with
weather disabled and one viewable site. -/
theorem start_day_consumes_rng_witness :
    sched0.consider_weather = false
    ∧ calc_viewable_sites sched0 [siteIn] ≠ []
    ∧ ((start_day sched0 [siteIn] rng0).2.2.nperm
          = rng0.nperm + (calc_viewable_sites sched0 [siteIn]).length
      ∧ (start_day sched0 [siteIn] rng0).2.2.nchoice
          = rng0.nchoice + (calc_viewable_sites sched0 [siteIn]).length) :=
  ⟨rfl, by decide, start_day_consumes_rng sched0 [siteIn] rng0 rfl (by decide)⟩

/-- C9: `start_day` assigns `worked_today := False` exactly when the
viewable list is empty and leaves the field untouched otherwise, and no
other operation of this scheduler (`update_schedule`, `end_day`) ever
writes it — in particular no operation ever sets `worked_today` to
True. -/
theorem worked_today_frame (sched : Schedule) (site_pool : List Site)
    (rng : Rng) (work_mins : Nat) (itinerary : List ItineraryEntry) :
    ((start_day sched site_pool rng).1).worked_today
      = (if calc_viewable_sites sched site_pool = [] then some false
         else sched.worked_today)
    ∧ (update_schedule sched work_mins).worked_today = sched.worked_today
    ∧ (end_day sched site_pool itinerary).worked_today = sched.worked_today := by
  refine ⟨?_, rfl, rfl⟩
  simp only [start_day]
  by_cases h : calc_viewable_sites sched site_pool = []
  · have hlen : (calc_viewable_sites { sched with hour := 1 } site_pool).length = 0 := by
      rw [calc_viewable_sites_hour_irrelevant, h]
      rfl
    rw [if_pos hlen, if_pos h]
  · have hlen : ¬ (calc_viewable_sites { sched with hour := 1 } site_pool).length = 0 := by
      rw [calc_viewable_sites_hour_irrelevant]
      simpa [List.length_eq_zero] using h
    rw [if_neg hlen, if_neg h]

/-- C10: the company-level scheduling operations are identity
pass-throughs: `get_due_sites` and `get_crew_site_list` return the site
pool argument unchanged and `get_working_crews` returns its `n_crews`
argument regardless of the site pool. -/
theorem company_schedule_passthrough (site_pool : List Site)
    (crew_num n_crews : Nat) (crews : Option (List Nat)) :
    Company.get_due_sites site_pool = site_pool
    ∧ Company.get_working_crews site_pool n_crews = n_crews
    ∧ Company.get_crew_site_list site_pool crew_num n_crews crews = site_pool :=
  ⟨rfl, rfl, rfl⟩

end LdarSim
